import Mathlib

/-!
Verification of the schema generator in pi-agent/generate-schemas.ts.

The generator holds three statically declared TypeBox schema definitions
(settings, models, auth), normalizes each with toJsonSchema (a JSON
round-trip deep copy, insertion of the draft-07 dialect URI, fallback
filling of a missing root title and description, and recursive removal of
keys whose text begins with the marker text) and serializes each result as
tab-indented JSON with a trailing newline via writeSchema.

The embedding models JavaScript values in two layers: JSVal is the
pre-clone in-memory value (string keys, genuine symbol keys, and the
undefined value), and JVal is the plain JSON tree obtained after the
round-trip through serialization, which drops symbol keys and
undefined-valued properties. Objects are ordered association lists, which
models the insertion-order key semantics of JavaScript objects.
-/

/-- An object key of an in-memory JavaScript value: either an ordinary
string key or a genuine symbol key (identified here by a number). -/
inductive JKey where
  | str (s : String)
  | sym (id : Nat)
deriving Repr

/-- An in-memory JavaScript value as the generator sees it before the
round-trip clone: JSON shapes plus the undefined value and symbol keys. -/
inductive JSVal where
  | undef
  | null
  | bool (b : Bool)
  | num (n : Int)
  | str (s : String)
  | arr (xs : List JSVal)
  | obj (fields : List (JKey × JSVal))
deriving Repr

/-- A plain JSON tree, the result of the round-trip clone on line 365 of
the source and the shape of every normalized schema document. -/
inductive JVal where
  | null
  | bool (b : Bool)
  | num (n : Int)
  | str (s : String)
  | arr (xs : List JVal)
  | obj (fields : List (String × JVal))
deriving Repr

/-- First-match lookup in an object field list, the semantics of property
access on a JavaScript object whose keys are unique. -/
def lookupF : List (String × JVal) → String → Option JVal
  | [], _ => none
  | (k0, v0) :: fs, k => if k0 = k then some v0 else lookupF fs k

/-- Property assignment obj[k] = v on a JavaScript object: replace the
value of an existing key in place, otherwise append the key at the end. -/
def setKey : List (String × JVal) → String → JVal → List (String × JVal)
  | [], k, v => [(k, v)]
  | (k0, v0) :: fs, k, v => if k0 = k then (k0, v) :: fs else (k0, v0) :: setKey fs k v

/-- JavaScript truthiness of a JSON value, as tested by the source on
lines 371 and 372 with the bang operator. -/
def jsTruthy : JVal → Bool
  | .null => false
  | .bool b => b
  | .num n => n != 0
  | .str s => s != ""
  | .arr _ => true
  | .obj _ => true

/-- Truthiness of a property of an object, with an absent property
(undefined) counting as falsy. -/
def truthyAt (fs : List (String × JVal)) (k : String) : Bool :=
  match lookupF fs k with
  | some v => jsTruthy v
  | none => false

mutual

/-- The value produced for one in-memory value by the round-trip
JSON.parse(JSON.stringify(x)) on line 365 of the source, in a position
where undefined serializes to null (an array element). -/
def jsonClone : JSVal → JVal
  | .undef => .null
  | .null => .null
  | .bool b => .bool b
  | .num n => .num n
  | .str s => .str s
  | .arr xs => .arr (cloneList xs)
  | .obj gs => .obj (cloneFields gs)

/-- Round-trip clone of the elements of an array. -/
def cloneList : List JSVal → List JVal
  | [] => []
  | x :: xs => jsonClone x :: cloneList xs

/-- Round-trip clone of the fields of an object: symbol-keyed properties
and undefined-valued properties are dropped by JSON.stringify, every
other property is cloned recursively. -/
def cloneFields : List (JKey × JSVal) → List (String × JVal)
  | [] => []
  | (JKey.sym _, _) :: gs => cloneFields gs
  | (JKey.str _, JSVal.undef) :: gs => cloneFields gs
  | (JKey.str s, v) :: gs => (s, jsonClone v) :: cloneFields gs

end

/-- The round-trip JSON.parse(JSON.stringify(x)) at the root: stringify of
the undefined value is undefined and the parse would fail, every other
value round-trips to its clone. -/
def jsonRoundTrip : JSVal → Option JVal
  | .undef => none
  | .null => some (jsonClone .null)
  | .bool b => some (jsonClone (.bool b))
  | .num n => some (jsonClone (.num n))
  | .str s => some (jsonClone (.str s))
  | .arr xs => some (jsonClone (.arr xs))
  | .obj gs => some (jsonClone (.obj gs))

/-- Whether the first list is a leading segment of the second. -/
def listStarts : List Char → List Char → Bool
  | [], _ => true
  | _ :: _, [] => false
  | p :: ps, c :: cs => p == c && listStarts ps cs

/-- The test on line 380 of the source, key.startsWith applied to the
bracket-Symbol text: a key is an internal marker when its characters
start with those of that text. -/
def markerB (k : String) : Bool := listStarts (String.data "[Symbol") k.data

mutual

/-- The recursive cleanup on lines 375 to 399 of the source: delete every
marker key of every object at every depth, and recurse into nested
objects and arrays. The source deletes the marker keys of a node first
and then recurses into the remaining values; dropping each marker entry
while recursing into the kept values computes the same tree. -/
def cleanSchema : JVal → JVal
  | .null => .null
  | .bool b => .bool b
  | .num n => .num n
  | .str s => .str s
  | .arr xs => .arr (cleanList xs)
  | .obj fs => .obj (cleanFields fs)

/-- Cleanup of the elements of an array: the source walks array values and
recurses into every element that is an object or an array; elements that
are primitives are left unchanged, as here. -/
def cleanList : List JVal → List JVal
  | [] => []
  | x :: xs => cleanSchema x :: cleanList xs

/-- Cleanup of the fields of an object: marker-keyed entries are deleted,
the values of the kept entries are cleaned recursively. -/
def cleanFields : List (String × JVal) → List (String × JVal)
  | [] => []
  | (k, v) :: fs => if markerB k then cleanFields fs else (k, cleanSchema v) :: cleanFields fs

end

/-- The fixed schema-dialect URI set on line 368 of the source. -/
def draft07Uri : String := "http://json-schema.org/draft-07/schema#"

/-- Lines 368 to 372 of the source on the fields of the cloned root
object: assign the dialect URI, then fill the title and the description
from the fallback arguments when the present value is falsy or absent. -/
def normalizeFields (fs : List (String × JVal)) (title description : String) :
    List (String × JVal) :=
  let fs1 := setKey fs "$schema" (JVal.str draft07Uri)
  let fs2 := if truthyAt fs1 "title" then fs1 else setKey fs1 "title" (JVal.str title)
  if truthyAt fs2 "description" then fs2 else setKey fs2 "description" (JVal.str description)

/-- The normalizer toJsonSchema of lines 363 to 401 of the source: deep
copy through the JSON round trip, add the dialect URI and the fallback
title and description at the root, then strip the marker keys
recursively. A root that is not an object is not a supported input: the
property assignments on lines 368 to 372 would throw in strict mode, and
the embedding returns none for it, as for an undefined root. -/
def toJsonSchema (schema : JSVal) (title description : String) : Option JVal :=
  match jsonRoundTrip schema with
  | some (JVal.obj fs) => some (cleanSchema (JVal.obj (normalizeFields fs title description)))
  | some _ => none
  | none => none

/-- The caller-visible effect of one call of the normalizer: the pair of
the definition the caller still holds after the call and the returned
document. Every write the source performs targets the clone made on line
365, so the first component is the unchanged argument. -/
def toJsonSchemaRun (schema : JSVal) (title description : String) : JSVal × Option JVal :=
  (schema, toJsonSchema schema title description)

/-- Hexadecimal digit, for the escape of a control character. -/
def hexDigit (n : Nat) : String :=
  List.getD ["0", "1", "2", "3", "4", "5", "6", "7", "8", "9", "a", "b", "c", "d", "e", "f"] n "0"

/-- Four hexadecimal digits, for the escape of a control character. -/
def hex4 (n : Nat) : String :=
  hexDigit (n / 4096 % 16) ++ hexDigit (n / 256 % 16) ++ hexDigit (n / 16 % 16) ++ hexDigit (n % 16)

/-- The escape JSON.stringify applies to one character of a string. -/
def escChar (c : Char) : String :=
  let n := c.toNat
  if n = 34 then "\\\""
  else if n = 92 then "\\\\"
  else if n = 10 then "\\n"
  else if n = 9 then "\\t"
  else if n = 13 then "\\r"
  else if n = 8 then "\\b"
  else if n = 12 then "\\f"
  else if n < 32 then "\\u" ++ hex4 n
  else String.singleton c

/-- The JSON string literal JSON.stringify emits for a string. -/
def jstr (s : String) : String := "\"" ++ String.join (s.data.map escChar) ++ "\""

/-- An indentation of n tab characters. -/
def nTabs (n : Nat) : String := String.mk (List.replicate n (Char.ofNat 9))

mutual

/-- The text JSON.stringify(v, null, tab) emits for a value at nesting
depth d, as used by writeSchema on line 405 of the source: members of a
nonempty object or array each on their own line, indented by one more
tab, a colon and a space after each key, an empty object or array on one
line. -/
def stringifyAux (d : Nat) : JVal → String
  | .null => "null"
  | .bool b => if b then "true" else "false"
  | .num n => toString n
  | .str s => jstr s
  | .arr [] => "[]"
  | .arr (x :: xs) =>
      "[\n" ++ String.intercalate ",\n" (stringifyItems (d + 1) (x :: xs)) ++ "\n" ++ nTabs d ++ "]"
  | .obj [] => "\x7b\x7d"
  | .obj (f :: fs) =>
      "\x7b\n" ++ String.intercalate ",\n" (stringifyEntries (d + 1) (f :: fs)) ++ "\n" ++ nTabs d ++ "\x7d"

/-- The lines for the elements of an array, each indented to depth d. -/
def stringifyItems (d : Nat) : List JVal → List String
  | [] => []
  | x :: xs => (nTabs d ++ stringifyAux d x) :: stringifyItems d xs

/-- The lines for the members of an object, each indented to depth d. -/
def stringifyEntries (d : Nat) : List (String × JVal) → List String
  | [] => []
  | (k, v) :: fs => (nTabs d ++ jstr k ++ ": " ++ stringifyAux d v) :: stringifyEntries d fs

end

/-- Tab-indented serialization of a whole document, JSON.stringify(v,
null, tab) at depth zero. -/
def stringifyTab (v : JVal) : String := stringifyAux 0 v

/-- The bytes writeSchema puts in the output file on line 405 of the
source: the tab-indented serialization followed by one newline. -/
def writtenContent (v : JVal) : String := stringifyTab v ++ "\n"

/-- Modelled from the spec: the TypeBox schema-builder library is an
external dependency whose code is not in the repository. Per its
documented in-memory representation, every built schema is a JavaScript
object holding the JSON Schema keywords as ordinary string-keyed
properties, any caller options spread first, plus a symbol-keyed kind
marker that only exists in memory. This entry models the kind marker
symbol property. -/
def kindEntry (k : String) : JKey × JSVal := (JKey.sym 0, JSVal.str k)

/-- Modelled from the spec: the symbol-keyed marker the builder library
attaches to a schema wrapped by its optional-property combinator. -/
def optionalEntry : JKey × JSVal := (JKey.sym 1, JSVal.str "Optional")

/-- Lift a string-keyed field to an object field. -/
def sKV (p : String × JSVal) : JKey × JSVal := (JKey.str p.1, p.2)

/-- An object made of the spread caller options followed by the fields the
builder adds. -/
def withOpts (opts : List (String × JSVal)) (rest : List (JKey × JSVal)) : JSVal :=
  JSVal.obj (opts.map sKV ++ rest)

/-- A description-only options list, as most declarations in the source
pass. -/
def optsD (s : String) : List (String × JSVal) := [("description", JSVal.str s)]

/-- Modelled from the spec: the string-schema builder of the external
library, yielding the options plus a string type keyword. -/
def tString (opts : List (String × JSVal)) : JSVal :=
  withOpts opts [kindEntry "String", (JKey.str "type", JSVal.str "string")]

/-- Modelled from the spec: the number-schema builder of the external
library. -/
def tNumber (opts : List (String × JSVal)) : JSVal :=
  withOpts opts [kindEntry "Number", (JKey.str "type", JSVal.str "number")]

/-- Modelled from the spec: the boolean-schema builder of the external
library. -/
def tBoolean (opts : List (String × JSVal)) : JSVal :=
  withOpts opts [kindEntry "Boolean", (JKey.str "type", JSVal.str "boolean")]

/-- Modelled from the spec: the literal-schema builder of the external
library for a string literal, yielding a const keyword and a string type
keyword. -/
def tLiteral (v : String) (opts : List (String × JSVal)) : JSVal :=
  withOpts opts [kindEntry "Literal", (JKey.str "const", JSVal.str v), (JKey.str "type", JSVal.str "string")]

/-- Modelled from the spec: the union builder of the external library,
yielding an anyOf keyword over the member schemas. -/
def tUnion (xs : List JSVal) (opts : List (String × JSVal)) : JSVal :=
  withOpts opts [kindEntry "Union", (JKey.str "anyOf", JSVal.arr xs)]

/-- Modelled from the spec: the array builder of the external library. -/
def tArray (items : JSVal) (opts : List (String × JSVal)) : JSVal :=
  withOpts opts [kindEntry "Array", (JKey.str "type", JSVal.str "array"), (JKey.str "items", items)]

/-- Modelled from the spec: the optional-property combinator of the
external library, which attaches the in-memory optional marker symbol to
the wrapped schema. -/
def tOptional (t : JSVal) : JSVal :=
  match t with
  | JSVal.obj gs => JSVal.obj (gs ++ [optionalEntry])
  | v => v

/-- Whether a property schema carries the optional marker. -/
def isOptionalB (t : JSVal) : Bool :=
  match t with
  | JSVal.obj gs => gs.any fun kv =>
      match kv.1 with
      | JKey.sym 1 => true
      | _ => false
  | _ => false

/-- Modelled from the spec: the object builder of the external library,
yielding the options, an object type keyword, the properties in
declaration order, and, when at least one property lacks the optional
marker, the list of required property names in declaration order. -/
def tObject (props : List (String × JSVal)) (opts : List (String × JSVal)) : JSVal :=
  let req := (props.filter fun p => !(isOptionalB p.2)).map fun p => p.1
  withOpts opts
    ([kindEntry "Object", (JKey.str "type", JSVal.str "object"),
      (JKey.str "properties", JSVal.obj (props.map sKV))] ++
      (if req.isEmpty then [] else [(JKey.str "required", JSVal.arr (req.map JSVal.str))]))

/-- Modelled from the spec: the record builder of the external library for
a string key schema, yielding an object type keyword and a
patternProperties keyword with the match-all key pattern. -/
def tRecordStr (value : JSVal) (opts : List (String × JSVal)) : JSVal :=
  withOpts opts
    [kindEntry "Record", (JKey.str "type", JSVal.str "object"),
     (JKey.str "patternProperties", JSVal.obj [(JKey.str "^(.*)$", value)])]

/-- Lines 28 to 39 of the source. -/
def CompactionSettingsSchema : JSVal :=
  tObject
    [("enabled", tOptional (tBoolean (optsD "Enable automatic context compaction (default: true)"))),
     ("reserveTokens", tOptional (tNumber (optsD "Tokens reserved for prompt + LLM response (default: 16384)"))),
     ("keepRecentTokens", tOptional (tNumber (optsD "Tokens to keep from recent messages (default: 20000)")))]
    [("additionalProperties", JSVal.bool false)]

/-- Lines 41 to 48 of the source. -/
def BranchSummarySettingsSchema : JSVal :=
  tObject
    [("reserveTokens", tOptional (tNumber (optsD "Tokens reserved for prompt + LLM response (default: 16384)")))]
    [("additionalProperties", JSVal.bool false)]

/-- Lines 50 to 59 of the source. -/
def RetrySettingsSchema : JSVal :=
  tObject
    [("enabled", tOptional (tBoolean (optsD "Enable automatic retries on transient errors (default: true)"))),
     ("maxRetries", tOptional (tNumber (optsD "Maximum retry attempts (default: 3)"))),
     ("baseDelayMs", tOptional (tNumber (optsD "Base delay for exponential backoff in ms (default: 2000)")))]
    [("additionalProperties", JSVal.bool false)]

/-- Lines 61 to 68 of the source. -/
def TerminalSettingsSchema : JSVal :=
  tObject
    [("showImages", tOptional (tBoolean (optsD "Show images in terminal if supported (default: true)")))]
    [("additionalProperties", JSVal.bool false)]

/-- Lines 70 to 80 of the source. -/
def ImageSettingsSchema : JSVal :=
  tObject
    [("autoResize", tOptional (tBoolean (optsD "Resize images to 2000x2000 max for better model compatibility (default: true)"))),
     ("blockImages", tOptional (tBoolean (optsD "Prevent all images from being sent to LLM providers (default: false)")))]
    [("additionalProperties", JSVal.bool false)]

/-- Lines 82 to 90 of the source. -/
def ThinkingBudgetsSettingsSchema : JSVal :=
  tObject
    [("minimal", tOptional (tNumber (optsD "Token budget for minimal thinking level"))),
     ("low", tOptional (tNumber (optsD "Token budget for low thinking level"))),
     ("medium", tOptional (tNumber (optsD "Token budget for medium thinking level"))),
     ("high", tOptional (tNumber (optsD "Token budget for high thinking level")))]
    [("additionalProperties", JSVal.bool false)]

/-- Lines 92 to 97 of the source. -/
def MarkdownSettingsSchema : JSVal :=
  tObject
    [("codeBlockIndent", tOptional (tString (optsD "Indentation for code blocks (default: \"  \")")))]
    [("additionalProperties", JSVal.bool false)]

/-- Lines 99 to 108 of the source. -/
def PackageSourceObjectSchema : JSVal :=
  tObject
    [("source", tString (optsD "npm package name or git URL")),
     ("extensions", tOptional (tArray (tString []) (optsD "Filter to specific extensions"))),
     ("skills", tOptional (tArray (tString []) (optsD "Filter to specific skills"))),
     ("prompts", tOptional (tArray (tString []) (optsD "Filter to specific prompt templates"))),
     ("themes", tOptional (tArray (tString []) (optsD "Filter to specific themes")))]
    [("additionalProperties", JSVal.bool false)]

/-- Lines 110 to 113 of the source. -/
def PackageSourceSchema : JSVal :=
  tUnion
    [tString (optsD "npm package name or git URL (loads all resources)"), PackageSourceObjectSchema]
    []

/-- Lines 115 to 196 of the source. -/
def SettingsSchema : JSVal :=
  tObject
    [("$schema", tOptional (tString (optsD "JSON Schema reference"))),
     ("lastChangelogVersion", tOptional (tString (optsD "Last seen changelog version (internal use)"))),
     ("defaultProvider", tOptional (tString (optsD "Default LLM provider (e.g., \x27anthropic\x27, \x27openai\x27)"))),
     ("defaultModel", tOptional (tString (optsD "Default model ID (e.g., \x27claude-sonnet-4-20250514\x27)"))),
     ("defaultThinkingLevel", tOptional (tUnion
        [tLiteral "off" [], tLiteral "minimal" [], tLiteral "low" [], tLiteral "medium" [],
         tLiteral "high" [], tLiteral "xhigh" []]
        (optsD "Default thinking/reasoning level for models that support it"))),
     ("steeringMode", tOptional (tUnion [tLiteral "all" [], tLiteral "one-at-a-time" []]
        (optsD "How to handle multiple steering messages (default: \x27one-at-a-time\x27)"))),
     ("followUpMode", tOptional (tUnion [tLiteral "all" [], tLiteral "one-at-a-time" []]
        (optsD "How to handle multiple follow-up messages (default: \x27one-at-a-time\x27)"))),
     ("theme", tOptional (tString (optsD "Theme name (e.g., \x27dark\x27, \x27light\x27, \x27solarized\x27)"))),
     ("compaction", tOptional CompactionSettingsSchema),
     ("branchSummary", tOptional BranchSummarySettingsSchema),
     ("retry", tOptional RetrySettingsSchema),
     ("hideThinkingBlock", tOptional (tBoolean (optsD "Hide the thinking/reasoning block in output (default: false)"))),
     ("shellPath", tOptional (tString (optsD "Custom shell path (e.g., for Cygwin users on Windows)"))),
     ("quietStartup", tOptional (tBoolean (optsD "Suppress startup messages (default: false)"))),
     ("shellCommandPrefix", tOptional (tString (optsD "Prefix prepended to every bash command (e.g., \"shopt -s expand_aliases\" for alias support)"))),
     ("collapseChangelog", tOptional (tBoolean (optsD "Show condensed changelog after update (default: false)"))),
     ("packages", tOptional (tArray PackageSourceSchema (optsD "npm/git packages to load extensions, skills, prompts, themes from"))),
     ("extensions", tOptional (tArray (tString []) (optsD "Local extension file paths or directories"))),
     ("skills", tOptional (tArray (tString []) (optsD "Local skill file paths or directories"))),
     ("prompts", tOptional (tArray (tString []) (optsD "Local prompt template paths or directories"))),
     ("themes", tOptional (tArray (tString []) (optsD "Local theme file paths or directories"))),
     ("enableSkillCommands", tOptional (tBoolean (optsD "Register skills as /skill:name commands (default: true)"))),
     ("terminal", tOptional TerminalSettingsSchema),
     ("images", tOptional ImageSettingsSchema),
     ("enabledModels", tOptional (tArray (tString []) (optsD "Model patterns for cycling (same format as --models CLI flag)"))),
     ("doubleEscapeAction", tOptional (tUnion [tLiteral "fork" [], tLiteral "tree" []]
        (optsD "Action for double-escape with empty editor (default: \"tree\")"))),
     ("thinkingBudgets", tOptional ThinkingBudgetsSettingsSchema),
     ("editorPaddingX", tOptional (tNumber
        [("minimum", JSVal.num 0), ("maximum", JSVal.num 3),
         ("description", JSVal.str "Horizontal padding for input editor (default: 0)")])),
     ("showHardwareCursor", tOptional (tBoolean (optsD "Show terminal cursor while still positioning it for IME (default: false)"))),
     ("markdown", tOptional MarkdownSettingsSchema)]
    [("$id", JSVal.str "https://buildwithpi.ai/schemas/settings.schema.json"),
     ("title", JSVal.str "Pi Coding Agent Settings"),
     ("description", JSVal.str "Configuration file for pi coding agent (~/.pi/agent/settings.json or .pi/settings.json)"),
     ("additionalProperties", JSVal.bool false)]

/-- Lines 202 to 208 of the source. -/
def OpenRouterRoutingSchema : JSVal :=
  tObject
    [("only", tOptional (tArray (tString []) (optsD "Only use these providers"))),
     ("order", tOptional (tArray (tString []) (optsD "Prefer providers in this order")))]
    [("additionalProperties", JSVal.bool false)]

/-- Lines 210 to 233 of the source. -/
def OpenAICompletionsCompatSchema : JSVal :=
  tObject
    [("supportsStore", tOptional (tBoolean (optsD "Supports store parameter"))),
     ("supportsDeveloperRole", tOptional (tBoolean (optsD "Supports developer role messages"))),
     ("supportsReasoningEffort", tOptional (tBoolean (optsD "Supports reasoning_effort parameter"))),
     ("supportsUsageInStreaming", tOptional (tBoolean (optsD "Reports usage in streaming responses"))),
     ("maxTokensField", tOptional (tUnion [tLiteral "max_completion_tokens" [], tLiteral "max_tokens" []]
        (optsD "Which field to use for max tokens"))),
     ("requiresToolResultName", tOptional (tBoolean (optsD "Requires name field in tool results"))),
     ("requiresAssistantAfterToolResult", tOptional (tBoolean (optsD "Requires assistant message after tool result"))),
     ("requiresThinkingAsText", tOptional (tBoolean (optsD "Requires thinking content as text"))),
     ("requiresMistralToolIds", tOptional (tBoolean (optsD "Requires Mistral-style tool IDs"))),
     ("thinkingFormat", tOptional (tUnion [tLiteral "openai" [], tLiteral "zai" []]
        (optsD "Thinking block format"))),
     ("openRouterRouting", tOptional OpenRouterRoutingSchema)]
    [("additionalProperties", JSVal.bool false)]

/-- Line 235 of the source. -/
def OpenAIResponsesCompatSchema : JSVal :=
  tObject []
    [("additionalProperties", JSVal.bool false),
     ("description", JSVal.str "Reserved for future use")]

/-- Lines 237 to 239 of the source. -/
def OpenAICompatSchema : JSVal :=
  tUnion [OpenAICompletionsCompatSchema, OpenAIResponsesCompatSchema]
    (optsD "OpenAI API compatibility settings")

/-- Lines 241 to 249 of the source. -/
def ModelCostSchema : JSVal :=
  tObject
    [("input", tNumber (optsD "Cost per million input tokens in USD")),
     ("output", tNumber (optsD "Cost per million output tokens in USD")),
     ("cacheRead", tNumber (optsD "Cost per million cached input tokens in USD")),
     ("cacheWrite", tNumber (optsD "Cost per million cache write tokens in USD"))]
    [("additionalProperties", JSVal.bool false)]

/-- Lines 251 to 274 of the source. -/
def ModelDefinitionSchema : JSVal :=
  tObject
    [("id", tString [("minLength", JSVal.num 1), ("description", JSVal.str "Model ID (e.g., \x27gpt-4o\x27)")]),
     ("name", tString [("minLength", JSVal.num 1), ("description", JSVal.str "Display name (e.g., \x27GPT-4o\x27)")]),
     ("api", tOptional (tString
        [("minLength", JSVal.num 1),
         ("description", JSVal.str "API type (overrides provider-level api). E.g., \x27openai-chat-stream\x27, \x27anthropic-stream\x27")])),
     ("reasoning", tBoolean (optsD "Whether the model supports extended thinking/reasoning")),
     ("input", tArray (tUnion [tLiteral "text" [], tLiteral "image" []] [])
        (optsD "Supported input modalities")),
     ("cost", ModelCostSchema),
     ("contextWindow", tNumber
        [("minimum", JSVal.num 1), ("description", JSVal.str "Maximum context window size in tokens")]),
     ("maxTokens", tNumber
        [("minimum", JSVal.num 1), ("description", JSVal.str "Maximum output tokens")]),
     ("headers", tOptional (tRecordStr (tString [])
        (optsD "Custom headers for this model (overrides provider headers)"))),
     ("compat", tOptional OpenAICompatSchema)]
    [("additionalProperties", JSVal.bool false)]

/-- Lines 276 to 302 of the source. -/
def ProviderConfigSchema : JSVal :=
  tObject
    [("baseUrl", tOptional (tString
        [("minLength", JSVal.num 1), ("description", JSVal.str "Base URL for API requests")])),
     ("apiKey", tOptional (tString
        [("minLength", JSVal.num 1),
         ("description", JSVal.str "API key, env var name, or shell command (prefix with !). E.g., \x27OPENAI_API_KEY\x27 or \x27!op read ...\x27")])),
     ("api", tOptional (tString
        [("minLength", JSVal.num 1),
         ("description", JSVal.str "Default API type for all models. E.g., \x27openai-chat-stream\x27, \x27anthropic-stream\x27")])),
     ("headers", tOptional (tRecordStr (tString [])
        (optsD "Custom headers for all models. Values can be env var names or shell commands (prefix with !)"))),
     ("authHeader", tOptional (tBoolean (optsD "Add Authorization: Bearer header with resolved apiKey (default: false)"))),
     ("models", tOptional (tArray ModelDefinitionSchema (optsD "Custom model definitions")))]
    [("additionalProperties", JSVal.bool false)]

/-- Lines 304 to 317 of the source. -/
def ModelsConfigSchema : JSVal :=
  tObject
    [("$schema", tOptional (tString (optsD "JSON Schema reference"))),
     ("providers", tRecordStr ProviderConfigSchema
        (optsD "Provider configurations keyed by provider name"))]
    [("$id", JSVal.str "https://buildwithpi.ai/schemas/models.schema.json"),
     ("title", JSVal.str "Pi Coding Agent Models Configuration"),
     ("description", JSVal.str "Custom models and provider configuration (~/.pi/agent/models.json)"),
     ("additionalProperties", JSVal.bool false)]

/-- Lines 323 to 329 of the source. -/
def ApiKeyCredentialSchema : JSVal :=
  tObject
    [("type", tLiteral "api_key" []),
     ("key", tString (optsD "The API key value"))]
    [("additionalProperties", JSVal.bool false)]

/-- Lines 332 to 342 of the source. -/
def OAuthCredentialSchema : JSVal :=
  tObject
    [("type", tLiteral "oauth" []),
     ("access", tString (optsD "OAuth access token")),
     ("refresh", tString (optsD "OAuth refresh token")),
     ("expires", tNumber (optsD "Token expiration timestamp (ms since epoch)")),
     ("accountId", tOptional (tString (optsD "Account ID (provider-specific)")))]
    [("additionalProperties", JSVal.bool true),
     ("description", JSVal.str "OAuth credentials (may include provider-specific fields)")]

/-- Lines 344 to 346 of the source. -/
def AuthCredentialSchema : JSVal :=
  tUnion [ApiKeyCredentialSchema, OAuthCredentialSchema]
    (optsD "Credential entry (API key or OAuth tokens)")

/-- Lines 348 to 352 of the source. -/
def AuthStorageSchema : JSVal :=
  tRecordStr AuthCredentialSchema
    [("$id", JSVal.str "https://buildwithpi.ai/schemas/auth.schema.json"),
     ("title", JSVal.str "Pi Coding Agent Auth Storage"),
     ("description", JSVal.str "Credential storage for API keys and OAuth tokens (~/.pi/agent/auth.json)")]

/-- The normalized settings document, from the call on lines 412 to 415 of
the source. -/
def settingsDoc : JVal :=
  (toJsonSchema SettingsSchema "Pi Coding Agent Settings"
      "Configuration file for pi coding agent").getD JVal.null

/-- The normalized models document, from the call on lines 417 to 420 of
the source. -/
def modelsDoc : JVal :=
  (toJsonSchema ModelsConfigSchema "Pi Coding Agent Models Configuration"
      "Custom models and provider configuration").getD JVal.null

/-- The normalized auth document, from the call on lines 422 to 425 of the
source. -/
def authDoc : JVal :=
  (toJsonSchema AuthStorageSchema "Pi Coding Agent Auth Storage"
      "Credential storage for API keys and OAuth tokens").getD JVal.null

/-- The fields of the root object of a document. -/
def jFieldsOf : JVal → List (String × JVal)
  | .obj fs => fs
  | _ => []

/-- Property access on a document node. -/
def jGet (v : JVal) (k : String) : Option JVal :=
  match v with
  | .obj fs => lookupF fs k
  | _ => none

/-- Element access on a document node. -/
def jIdx (v : JVal) (i : Nat) : Option JVal :=
  match v with
  | .arr xs => xs.get? i
  | _ => none

/-- The bytes of the generated settings.schema.json file. -/
def settingsContent : String := writtenContent settingsDoc

/-- The bytes of the generated models.schema.json file. -/
def modelsContent : String := writtenContent modelsDoc

/-- The bytes of the generated auth.schema.json file. -/
def authContent : String := writtenContent authDoc

/-- The three writes of the driver, lines 412 to 425 of the source, as the
ordered list of file name and content pairs. -/
def mainFiles : List (String × String) :=
  [("settings.schema.json", settingsContent),
   ("models.schema.json", modelsContent),
   ("auth.schema.json", authContent)]

mutual

/-- Structural equality of two JSON values, for the const keyword. -/
def jeq : JVal → JVal → Bool
  | .null, .null => true
  | .bool a, .bool b => a == b
  | .num a, .num b => a == b
  | .str a, .str b => a == b
  | .arr xs, .arr ys => jeqList xs ys
  | .obj fs, .obj gs => jeqFields fs gs
  | _, _ => false

/-- Structural equality of two JSON arrays. -/
def jeqList : List JVal → List JVal → Bool
  | [], [] => true
  | x :: xs, y :: ys => jeq x y && jeqList xs ys
  | _, _ => false

/-- Structural equality of two JSON objects, order included. -/
def jeqFields : List (String × JVal) → List (String × JVal) → Bool
  | [], [] => true
  | (k, v) :: fs, (l, w) :: gs => k == l && jeq v w && jeqFields fs gs
  | _, _ => false

end

/-- The JSON Schema type name an instance satisfies. -/
def typeOk (t : String) (v : JVal) : Bool :=
  match v with
  | .null => t == "null"
  | .bool _ => t == "boolean"
  | .num _ => t == "number" || t == "integer"
  | .str _ => t == "string"
  | .arr _ => t == "array"
  | .obj _ => t == "object"

/-- Modelled from the spec: validation of regular-expression key patterns
is outside the source; the generator only ever emits the match-all key
pattern of the record builder, which matches every property name, and
every other pattern is treated as matching nothing. -/
def patMatch (pat : String) (_k : String) : Bool := pat == "^(.*)$"

/-- The property names listed under an optional properties keyword. -/
def propNames : Option JVal → List String
  | some (.obj ps) => ps.map Prod.fst
  | _ => []

/-- Modelled from the spec: JSON Schema Draft 07 validation semantics,
which the spec invokes for its auth end-to-end scenario but whose
implementation is no part of the repository. The keywords the generated
documents use are interpreted: type, const, required, properties,
patternProperties, boolean additionalProperties, anyOf, minLength,
minimum and maximum. The fuel argument bounds the recursion depth and is
ample for the concrete documents validated here. -/
def validate : Nat → JVal → JVal → Bool
  | 0, _, _ => false
  | fuel + 1, schema, doc =>
    match schema with
    | .bool b => b
    | .obj sfs =>
      let cType := match lookupF sfs "type" with
        | some (.str t) => typeOk t doc
        | _ => true
      let cConst := match lookupF sfs "const" with
        | some c => jeq doc c
        | none => true
      let cRequired := match lookupF sfs "required", doc with
        | some (.arr ks), .obj dfs => ks.all fun kv =>
            match kv with
            | .str k => (lookupF dfs k).isSome
            | _ => true
        | _, _ => true
      let cProps := match lookupF sfs "properties", doc with
        | some (.obj ps), .obj dfs => ps.all fun p =>
            match lookupF dfs p.1 with
            | some dv => validate fuel p.2 dv
            | none => true
        | _, _ => true
      let cPatProps := match lookupF sfs "patternProperties", doc with
        | some (.obj pps), .obj dfs => pps.all fun pp =>
            dfs.all fun kv => if patMatch pp.1 kv.1 then validate fuel pp.2 kv.2 else true
        | _, _ => true
      let cAddProps := match lookupF sfs "additionalProperties", doc with
        | some (.bool false), .obj dfs => dfs.all fun kv =>
            (propNames (lookupF sfs "properties")).contains kv.1 ||
              (propNames (lookupF sfs "patternProperties")).any fun pat => patMatch pat kv.1
        | _, _ => true
      let cAnyOf := match lookupF sfs "anyOf" with
        | some (.arr ss) => ss.any fun s => validate fuel s doc
        | _ => true
      let cMinLength := match lookupF sfs "minLength", doc with
        | some (.num n), .str s => n ≤ (s.length : Int)
        | _, _ => true
      let cMinimum := match lookupF sfs "minimum", doc with
        | some (.num n), .num m => n ≤ m
        | _, _ => true
      let cMaximum := match lookupF sfs "maximum", doc with
        | some (.num n), .num m => m ≤ n
        | _, _ => true
      cType && cConst && cRequired && cProps && cPatProps && cAddProps &&
        cAnyOf && cMinLength && cMinimum && cMaximum
    | _ => true

/-- The driver writes with a failure model: step i succeeds when ok i is
true; the first failing write aborts the run, so the files on disk are
the ones written before it. Models the straight-line sequence of
writeSchema calls on lines 412 to 425 of the source, which has no retry
and no error handling. -/
def runWrites (ok : Nat → Bool) : Nat → List (String × String) → List (String × String)
  | _, [] => []
  | i, f :: rest => if ok i then f :: runWrites ok (i + 1) rest else []

/-- Modelled from the spec: the filesystem the Node calls mkdirSync and
writeFileSync act upon, which is no part of the repository. Directories
and files are held by absolute path, a path being its list of segments. -/
structure FsState where
  dirs : List (List String)
  files : List (List String × String)

/-- The nonempty initial segments of a path, shortest first. -/
def initialSegs : List String → List (List String)
  | [] => []
  | s :: rest => [s] :: (initialSegs rest).map fun q => s :: q

/-- Modelled from the spec: mkdirSync with the recursive option, which
creates the directory and all missing parents and succeeds whether or
not they exist, as called on line 410 of the source. -/
def mkdirRec (fs : FsState) (p : List String) : FsState :=
  { fs with dirs := initialSegs p ++ fs.dirs }

/-- Whether a directory exists. -/
def dirExists (fs : FsState) (p : List String) : Bool := fs.dirs.contains p

/-- Store a file at a path, replacing any file already there. -/
def setFile : List (List String × String) → List String → String → List (List String × String)
  | [], p, c => [(p, c)]
  | (q, d) :: rest, p, c => if q = p then (q, c) :: rest else (q, d) :: setFile rest p c

/-- The file stored at a path. -/
def fileAt : List (List String × String) → List String → Option String
  | [], _ => none
  | (q, d) :: rest, p => if q = p then some d else fileAt rest p

/-- The output directory of the generator, the schemas/pi-agent directory
next to the script, abstracted to a fixed path. -/
def schemasDirPath : List String := ["schemas", "pi-agent"]

/-- Modelled from the spec: writeFileSync as used by writeSchema on lines
403 to 407 of the source. The write succeeds and replaces any existing
file when the containing directory exists; writeFileSync creates no
directories, so the write fails when the directory is missing. -/
def writeSchemaFS (fs : FsState) (filename : String) (content : String) : Option FsState :=
  if dirExists fs schemasDirPath then
    some { fs with files := setFile fs.files (schemasDirPath ++ [filename]) content }
  else
    none

/-- The whole driver, lines 410 to 425 of the source, over the filesystem
model: one recursive directory creation, then the three writes in order. -/
def runMainFS (fs0 : FsState) : Option FsState :=
  let fs1 := mkdirRec fs0 schemasDirPath
  (writeSchemaFS fs1 "settings.schema.json" settingsContent).bind fun fs2 =>
    (writeSchemaFS fs2 "models.schema.json" modelsContent).bind fun fs3 =>
      writeSchemaFS fs3 "auth.schema.json" authContent

/-- The serialized artifact the generator produces for one definition:
normalize, then serialize with the tab indent and the trailing newline. -/
def artifactOf (schema : JSVal) (title description : String) : Option String :=
  (toJsonSchema schema title description).map writtenContent

mutual

/-- Whether a document holds no marker key at any depth. -/
def noMarkersB : JVal → Bool
  | .null => true
  | .bool _ => true
  | .num _ => true
  | .str _ => true
  | .arr xs => noMarkersListB xs
  | .obj fs => noMarkersFieldsB fs

/-- Whether the elements of an array hold no marker key at any depth. -/
def noMarkersListB : List JVal → Bool
  | [] => true
  | x :: xs => noMarkersB x && noMarkersListB xs

/-- Whether an object and its descendants hold no marker key. -/
def noMarkersFieldsB : List (String × JVal) → Bool
  | [] => true
  | (k, v) :: fs => !(markerB k) && noMarkersB v && noMarkersFieldsB fs

end

/-- First-match lookup among the pre-clone fields of an object, restricted
to the entries the JSON round trip keeps: string-keyed entries whose
value is not undefined. -/
def lookupKeep : List (JKey × JSVal) → String → Option JSVal
  | [], _ => none
  | (JKey.sym _, _) :: gs, k => lookupKeep gs k
  | (JKey.str _, JSVal.undef) :: gs, k => lookupKeep gs k
  | (JKey.str s, v) :: gs, k => if s = k then some v else lookupKeep gs k

theorem lookupF_setKey_self (fs : List (String × JVal)) (k : String) (v : JVal) :
    lookupF (setKey fs k v) k = some v := by
  induction fs with
  | nil => simp [setKey, lookupF]
  | cons hd tl ih =>
    obtain ⟨k0, v0⟩ := hd
    by_cases h : k0 = k
    · simp [setKey, h, lookupF]
    · simp [setKey, h, lookupF, ih]

theorem lookupF_setKey_ne (fs : List (String × JVal)) (k : String) (v : JVal) (q : String)
    (h : q ≠ k) : lookupF (setKey fs k v) q = lookupF fs q := by
  induction fs with
  | nil => simp [setKey, lookupF, Ne.symm h]
  | cons hd tl ih =>
    obtain ⟨k0, v0⟩ := hd
    by_cases h0 : k0 = k
    · subst h0
      simp [setKey, lookupF, Ne.symm h]
    · by_cases h1 : k0 = q
      · simp [setKey, h0, lookupF, h1, h]
      · simp [setKey, h0, lookupF, h1, ih]

theorem lookupF_cleanFields (fs : List (String × JVal)) (k : String) :
    lookupF (cleanFields fs) k =
      if markerB k then none else (lookupF fs k).map cleanSchema := by
  induction fs with
  | nil => cases hm : markerB k <;> simp [cleanFields, lookupF, hm]
  | cons hd tl ih =>
    obtain ⟨k0, v0⟩ := hd
    by_cases h0 : markerB k0
    · by_cases hk : k0 = k
      · subst hk
        simp [cleanFields, h0, lookupF, ih]
      · simp [cleanFields, h0, lookupF, hk, ih]
    · by_cases hk : k0 = k
      · subst hk
        simp [cleanFields, h0, lookupF]
      · simp [cleanFields, h0, lookupF, hk, ih]

theorem lookupF_cloneFields (gs : List (JKey × JSVal)) (k : String) :
    lookupF (cloneFields gs) k = (lookupKeep gs k).map jsonClone := by
  induction gs with
  | nil => simp [cloneFields, lookupKeep, lookupF]
  | cons hd tl ih =>
    obtain ⟨hk, hv⟩ := hd
    cases hk with
    | sym i => simp [cloneFields, lookupKeep, ih]
    | str s =>
      cases hv <;> by_cases h : s = k <;>
        simp [cloneFields, lookupKeep, lookupF, h, ih]

mutual

theorem cleanSchema_noMarkers : (v : JVal) → noMarkersB (cleanSchema v) = true
  | .null => rfl
  | .bool _ => rfl
  | .num _ => rfl
  | .str _ => rfl
  | .arr xs => by simpa [cleanSchema, noMarkersB] using cleanList_noMarkers xs
  | .obj fs => by simpa [cleanSchema, noMarkersB] using cleanFields_noMarkers fs

theorem cleanList_noMarkers : (xs : List JVal) → noMarkersListB (cleanList xs) = true
  | [] => rfl
  | x :: xs => by
      simp [cleanList, noMarkersListB, cleanSchema_noMarkers x, cleanList_noMarkers xs]

theorem cleanFields_noMarkers : (fs : List (String × JVal)) → noMarkersFieldsB (cleanFields fs) = true
  | [] => rfl
  | (k, v) :: fs => by
      by_cases h : markerB k
      · simp [cleanFields, h, cleanFields_noMarkers fs]
      · simp [cleanFields, h, noMarkersFieldsB, cleanSchema_noMarkers v, cleanFields_noMarkers fs]

end

theorem fileAt_setFile_self (l : List (List String × String)) (p : List String) (c : String) :
    fileAt (setFile l p c) p = some c := by
  induction l with
  | nil => simp [setFile, fileAt]
  | cons hd tl ih =>
    obtain ⟨q, d⟩ := hd
    by_cases h : q = p
    · simp [setFile, h, fileAt]
    · simp [setFile, h, fileAt, ih]

theorem fileAt_setFile_ne (l : List (List String × String)) (p : List String) (c : String)
    (q : List String) (h : q ≠ p) : fileAt (setFile l p c) q = fileAt l q := by
  induction l with
  | nil => simp [setFile, fileAt, Ne.symm h]
  | cons hd tl ih =>
    obtain ⟨r, d⟩ := hd
    by_cases h0 : r = p
    · subst h0
      simp [setFile, fileAt, Ne.symm h]
    · by_cases h1 : r = q
      · simp [setFile, h0, fileAt, h1, h]
      · simp [setFile, h0, fileAt, h1, ih]

theorem lookupF_fillKey (g : List (String × JVal)) (k : String) (x : String) :
    lookupF (if truthyAt g k then g else setKey g k (JVal.str x)) k =
      some (match lookupF g k with
            | some v => if jsTruthy v then v else JVal.str x
            | none => JVal.str x) := by
  rcases hv : lookupF g k with _ | v
  · have ht : ¬ truthyAt g k = true := by simp [truthyAt, hv]
    rw [if_neg ht, lookupF_setKey_self]
  · cases hjt : jsTruthy v with
    | false =>
      have ht : ¬ truthyAt g k = true := by simp [truthyAt, hv, hjt]
      rw [if_neg ht, lookupF_setKey_self]
      simp [hjt]
    | true =>
      have ht : truthyAt g k = true := by simp [truthyAt, hv, hjt]
      rw [if_pos ht, hv]
      simp [hjt]

theorem lookupF_descStep (g : List (String × JVal)) (d : String) :
    lookupF (if truthyAt g "description" then g else setKey g "description" (JVal.str d))
      "title" = lookupF g "title" := by
  split
  · rfl
  · exact lookupF_setKey_ne g "description" (JVal.str d) "title" (by decide)

theorem lookupF_normalizeFields_title (fs : List (String × JVal)) (t d : String) :
    lookupF (normalizeFields fs t d) "title" =
      some (match lookupF fs "title" with
            | some v => if jsTruthy v then v else JVal.str t
            | none => JVal.str t) := by
  simp only [normalizeFields]
  rw [lookupF_descStep, lookupF_fillKey,
    lookupF_setKey_ne fs "$schema" (JVal.str draft07Uri) "title" (by decide)]

theorem lookupF_normalizeFields_description (fs : List (String × JVal)) (t d : String) :
    lookupF (normalizeFields fs t d) "description" =
      some (match lookupF fs "description" with
            | some v => if jsTruthy v then v else JVal.str d
            | none => JVal.str d) := by
  simp only [normalizeFields]
  rw [lookupF_fillKey]
  have h2 : lookupF (if truthyAt (setKey fs "$schema" (JVal.str draft07Uri)) "title" then
        setKey fs "$schema" (JVal.str draft07Uri)
      else setKey (setKey fs "$schema" (JVal.str draft07Uri)) "title" (JVal.str t))
      "description" = lookupF fs "description" := by
    split
    · exact lookupF_setKey_ne fs "$schema" (JVal.str draft07Uri) "description" (by decide)
    · rw [lookupF_setKey_ne _ "title" (JVal.str t) "description" (by decide)]
      exact lookupF_setKey_ne fs "$schema" (JVal.str draft07Uri) "description" (by decide)
  rw [h2]

/-- Claim C1: the generation is deterministic. For the same definition
(here: the definition as the caller still holds it after a first
normalizer run, which equals the original) and the same fallback title
and description, the normalizer plus writer pipeline produces
byte-identical serialized output, so the artifact is fully determined by
the definition. -/
theorem generation_deterministic (s s2 : JSVal) (t d : String) (h : s2 = s) :
    artifactOf (toJsonSchemaRun s t d).1 t d = artifactOf s t d ∧
    artifactOf s2 t d = artifactOf s t d := by
  subst h
  exact ⟨rfl, rfl⟩

/-- Witness for C1 at the settings definition and its fallback strings. -/
theorem generation_deterministic_witness :
    artifactOf (toJsonSchemaRun SettingsSchema "Pi Coding Agent Settings"
        "Configuration file for pi coding agent").1 "Pi Coding Agent Settings"
        "Configuration file for pi coding agent" =
      artifactOf SettingsSchema "Pi Coding Agent Settings"
        "Configuration file for pi coding agent" ∧
    artifactOf SettingsSchema "Pi Coding Agent Settings"
        "Configuration file for pi coding agent" =
      artifactOf SettingsSchema "Pi Coding Agent Settings"
        "Configuration file for pi coding agent" :=
  generation_deterministic SettingsSchema SettingsSchema "Pi Coding Agent Settings"
    "Configuration file for pi coding agent" rfl

/-- Claim C2: the normalizer never mutates its input. The definition the
caller holds after the call is the one passed in, and the returned
document is a function of the deep copy alone: two definitions with the
same JSON round-trip clone yield the same output, every addition and
removal being applied to the clone. -/
theorem normalizer_input_preserved :
    (∀ (s : JSVal) (t d : String), (toJsonSchemaRun s t d).1 = s) ∧
    (∀ (s s2 : JSVal) (t d : String), jsonRoundTrip s = jsonRoundTrip s2 →
      toJsonSchema s t d = toJsonSchema s2 t d) := by
  refine ⟨fun s t d => rfl, fun s s2 t d h => ?_⟩
  simp only [toJsonSchema, h]

/-- Witness for C2: the input is preserved for a concrete object, and two
objects with the same clone (one holds an undefined-valued property the
round trip drops) normalize identically. -/
theorem normalizer_input_preserved_witness :
    (toJsonSchemaRun (JSVal.obj [(JKey.str "a", JSVal.undef)]) "T" "D").1 =
      JSVal.obj [(JKey.str "a", JSVal.undef)] ∧
    toJsonSchema (JSVal.obj [(JKey.str "a", JSVal.undef)]) "T" "D" =
      toJsonSchema (JSVal.obj []) "T" "D" :=
  ⟨normalizer_input_preserved.1 (JSVal.obj [(JKey.str "a", JSVal.undef)]) "T" "D",
   normalizer_input_preserved.2 (JSVal.obj [(JKey.str "a", JSVal.undef)]) (JSVal.obj []) "T" "D"
     rfl⟩

/-- Counterexample to claim C3: a definition that sets a root title (to
the empty string, a falsy value) does not keep it; the source tests the
title with JavaScript truthiness, so the fallback replaces it. -/
theorem title_falsy_not_preserved :
    toJsonSchema (JSVal.obj [(JKey.str "title", JSVal.str "")]) "FallbackTitle"
        "FallbackDescription" =
      some (JVal.obj
        [("title", JVal.str "FallbackTitle"),
         ("$schema", JVal.str draft07Uri),
         ("description", JVal.str "FallbackDescription")]) ∧
    ("FallbackTitle" : String) ≠ "" := ⟨rfl, by decide⟩

/-- Claim C3 as amended: with no root title or description, or with a
falsy one such as the empty string, the output carries the fallback
arguments verbatim; a truthy root title or description is preserved (its
value still undergoes the marker-key stripping, which leaves any string
value unchanged). -/
theorem normalizer_fallback_fill (gs : List (JKey × JSVal)) (t d : String) :
    toJsonSchema (JSVal.obj gs) t d =
      some (JVal.obj (cleanFields (normalizeFields (cloneFields gs) t d))) ∧
    lookupF (cleanFields (normalizeFields (cloneFields gs) t d)) "title" =
      some (match lookupF (cloneFields gs) "title" with
            | some v => if jsTruthy v then cleanSchema v else JVal.str t
            | none => JVal.str t) ∧
    lookupF (cleanFields (normalizeFields (cloneFields gs) t d)) "description" =
      some (match lookupF (cloneFields gs) "description" with
            | some v => if jsTruthy v then cleanSchema v else JVal.str d
            | none => JVal.str d) := by
  refine ⟨rfl, ?_, ?_⟩
  · rw [lookupF_cleanFields]
    have hm : markerB "title" = false := rfl
    rw [hm, if_neg (by simp), lookupF_normalizeFields_title]
    rcases hv : lookupF (cloneFields gs) "title" with _ | v
    · rfl
    · cases hjt : jsTruthy v <;> simp [hjt, cleanSchema]
  · rw [lookupF_cleanFields]
    have hm : markerB "description" = false := rfl
    rw [hm, if_neg (by simp), lookupF_normalizeFields_description]
    rcases hv : lookupF (cloneFields gs) "description" with _ | v
    · rfl
    · cases hjt : jsTruthy v <;> simp [hjt, cleanSchema]

/-- Claim C4: for every definition, every internal marker key at any
depth is absent from the normalized document: any document the
normalizer returns satisfies the no-marker-key predicate everywhere. -/
theorem normalized_no_marker_keys (s : JSVal) (t d : String) :
    Option.all noMarkersB (toJsonSchema s t d) = true := by
  cases hrt : jsonRoundTrip s with
  | none => simp [toJsonSchema, hrt, Option.all]
  | some j =>
    cases j with
    | obj fs => simp [toJsonSchema, hrt, Option.all, cleanSchema_noMarkers]
    | null => simp [toJsonSchema, hrt, Option.all]
    | bool b => simp [toJsonSchema, hrt, Option.all]
    | num n => simp [toJsonSchema, hrt, Option.all]
    | str sx => simp [toJsonSchema, hrt, Option.all]
    | arr xs => simp [toJsonSchema, hrt, Option.all]

/-- Claim C5: each of the three written documents is the tab-indented
serialization with a trailing newline, and carries a top-level dialect
URI, id, title, description and a closed-object marker, except the auth
document, whose root is an open mapping (no additionalProperties, one
match-all key pattern) and whose OAuth entry permits extra fields. -/
theorem outputs_toplevel_shape :
    settingsContent = stringifyTab settingsDoc ++ "\n" ∧
    modelsContent = stringifyTab modelsDoc ++ "\n" ∧
    authContent = stringifyTab authDoc ++ "\n" ∧
    jGet settingsDoc "$schema" = some (JVal.str draft07Uri) ∧
    jGet settingsDoc "$id" =
      some (JVal.str "https://buildwithpi.ai/schemas/settings.schema.json") ∧
    jGet settingsDoc "title" = some (JVal.str "Pi Coding Agent Settings") ∧
    jGet settingsDoc "description" =
      some (JVal.str "Configuration file for pi coding agent (~/.pi/agent/settings.json or .pi/settings.json)") ∧
    jGet settingsDoc "additionalProperties" = some (JVal.bool false) ∧
    jGet modelsDoc "$schema" = some (JVal.str draft07Uri) ∧
    jGet modelsDoc "$id" =
      some (JVal.str "https://buildwithpi.ai/schemas/models.schema.json") ∧
    jGet modelsDoc "title" = some (JVal.str "Pi Coding Agent Models Configuration") ∧
    jGet modelsDoc "description" =
      some (JVal.str "Custom models and provider configuration (~/.pi/agent/models.json)") ∧
    jGet modelsDoc "additionalProperties" = some (JVal.bool false) ∧
    jGet authDoc "$schema" = some (JVal.str draft07Uri) ∧
    jGet authDoc "$id" =
      some (JVal.str "https://buildwithpi.ai/schemas/auth.schema.json") ∧
    jGet authDoc "title" = some (JVal.str "Pi Coding Agent Auth Storage") ∧
    jGet authDoc "description" =
      some (JVal.str "Credential storage for API keys and OAuth tokens (~/.pi/agent/auth.json)") ∧
    jGet authDoc "additionalProperties" = none ∧
    (jGet authDoc "patternProperties").map (fun p => (jFieldsOf p).map Prod.fst) =
      some ["^(.*)$"] ∧
    ((((jGet authDoc "patternProperties").bind fun p => jGet p "^(.*)$").bind
        fun c => jGet c "anyOf").bind fun a => jIdx a 1).bind
        (fun o => jGet o "additionalProperties") = some (JVal.bool true) :=
  ⟨rfl, rfl, rfl, rfl, rfl, rfl, rfl, rfl, rfl, rfl,
   rfl, rfl, rfl, rfl, rfl, rfl, rfl, rfl, rfl, rfl⟩

/-- Claim C6: the generated settings document closes its root to
additional properties, has no required list (every root property,
compaction included, is optional), sets the fixed settings id URI, and
holds a compaction object property, itself closed, with boolean enabled
and numeric reserveTokens and keepRecentTokens, all optional. -/
theorem settings_schema_scenario :
    jGet settingsDoc "additionalProperties" = some (JVal.bool false) ∧
    jGet settingsDoc "required" = none ∧
    jGet settingsDoc "$id" =
      some (JVal.str "https://buildwithpi.ai/schemas/settings.schema.json") ∧
    ((jGet settingsDoc "properties").bind fun p => jGet p "compaction").bind
      (fun c => jGet c "type") = some (JVal.str "object") ∧
    ((jGet settingsDoc "properties").bind fun p => jGet p "compaction").bind
      (fun c => jGet c "additionalProperties") = some (JVal.bool false) ∧
    ((jGet settingsDoc "properties").bind fun p => jGet p "compaction").bind
      (fun c => jGet c "required") = none ∧
    ((((jGet settingsDoc "properties").bind fun p => jGet p "compaction").bind
      fun c => jGet c "properties").bind fun q => jGet q "enabled").bind
      (fun e => jGet e "type") = some (JVal.str "boolean") ∧
    ((((jGet settingsDoc "properties").bind fun p => jGet p "compaction").bind
      fun c => jGet c "properties").bind fun q => jGet q "reserveTokens").bind
      (fun e => jGet e "type") = some (JVal.str "number") ∧
    ((((jGet settingsDoc "properties").bind fun p => jGet p "compaction").bind
      fun c => jGet c "properties").bind fun q => jGet q "keepRecentTokens").bind
      (fun e => jGet e "type") = some (JVal.str "number") :=
  ⟨rfl, rfl, rfl, rfl, rfl, rfl, rfl, rfl, rfl⟩

/-- Claim C7: under Draft 07 validation semantics, the document with an
api-key entry carrying a key validates against the generated auth
document, and the same entry without the key fails. -/
theorem auth_validation_scenario :
    validate 32 authDoc
      (JVal.obj [("work", JVal.obj [("type", JVal.str "api_key"), ("key", JVal.str "sk-1")])]) =
      true ∧
    validate 32 authDoc
      (JVal.obj [("work", JVal.obj [("type", JVal.str "api_key")])]) = false :=
  ⟨rfl, rfl⟩

/-- Claim C8: the driver writes the three documents in the fixed order
settings, models, auth; under any pattern of write failures the files
written are a take of that sequence, an all-success run writes all
three, and the name order is as fixed. -/
theorem driver_order_and_abort :
    (∀ ok : Nat → Bool, ∃ k, k ≤ mainFiles.length ∧
      runWrites ok 0 mainFiles = List.take k mainFiles) ∧
    runWrites (fun _ => true) 0 mainFiles = mainFiles ∧
    mainFiles.map Prod.fst =
      ["settings.schema.json", "models.schema.json", "auth.schema.json"] := by
  refine ⟨?_, ?_, ?_⟩
  · intro ok
    cases h0 : ok 0 with
    | false => exact ⟨0, by simp [mainFiles], by simp [mainFiles, runWrites, h0]⟩
    | true =>
      cases h1 : ok 1 with
      | false => exact ⟨1, by simp [mainFiles], by simp [mainFiles, runWrites, h0, h1]⟩
      | true =>
        cases h2 : ok 2 with
        | false => exact ⟨2, by simp [mainFiles], by simp [mainFiles, runWrites, h0, h1, h2]⟩
        | true => exact ⟨3, by simp [mainFiles], by simp [mainFiles, runWrites, h0, h1, h2]⟩
  · simp [mainFiles, runWrites]
  · rfl

/-- Counterexample to claim C9: the Schema Writer itself creates no
directories. Invoked on a filesystem without the output directory, it
fails instead of creating the missing parents, so the Writer alone does
not ensure the output directory exists. -/
theorem writer_alone_no_mkdir :
    writeSchemaFS { dirs := [], files := [] } "settings.schema.json" settingsContent = none ∧
    dirExists { dirs := [], files := [] } schemasDirPath = false :=
  ⟨rfl, rfl⟩

/-- Claim C9 as amended: the driver, not the Writer, ensures the output
directory exists, creating all missing parents recursively once before
the writes; from any starting filesystem the whole run succeeds, every
write overwrites whatever file was at its destination, and the output
directories exist afterwards. -/
theorem driver_creates_dirs_and_overwrites (fs0 : FsState) :
    (runMainFS fs0).isSome = true ∧
    fileAt ((runMainFS fs0).getD ⟨[], []⟩).files
      (schemasDirPath ++ ["settings.schema.json"]) = some settingsContent ∧
    fileAt ((runMainFS fs0).getD ⟨[], []⟩).files
      (schemasDirPath ++ ["models.schema.json"]) = some modelsContent ∧
    fileAt ((runMainFS fs0).getD ⟨[], []⟩).files
      (schemasDirPath ++ ["auth.schema.json"]) = some authContent ∧
    dirExists ((runMainFS fs0).getD ⟨[], []⟩) schemasDirPath = true ∧
    dirExists ((runMainFS fs0).getD ⟨[], []⟩) ["schemas"] = true := by
  have hM : schemasDirPath ∈ initialSegs schemasDirPath := by decide
  have hM2 : ["schemas"] ∈ initialSegs schemasDirPath := by decide
  have hrun : runMainFS fs0 = some
      { dirs := initialSegs schemasDirPath ++ fs0.dirs,
        files := setFile (setFile (setFile fs0.files
          (schemasDirPath ++ ["settings.schema.json"]) settingsContent)
          (schemasDirPath ++ ["models.schema.json"]) modelsContent)
          (schemasDirPath ++ ["auth.schema.json"]) authContent } := by
    simp [runMainFS, mkdirRec, writeSchemaFS, dirExists, hM]
  refine ⟨by rw [hrun]; rfl, ?_, ?_, ?_, ?_, ?_⟩
  · rw [hrun]
    simp only [Option.getD_some]
    rw [fileAt_setFile_ne _ _ _ _ (by decide), fileAt_setFile_ne _ _ _ _ (by decide),
      fileAt_setFile_self]
  · rw [hrun]
    simp only [Option.getD_some]
    rw [fileAt_setFile_ne _ _ _ _ (by decide), fileAt_setFile_self]
  · rw [hrun]
    simp only [Option.getD_some]
    rw [fileAt_setFile_self]
  · rw [hrun]
    simp only [Option.getD_some]
    simp [dirExists, hM]
  · rw [hrun]
    simp only [Option.getD_some]
    simp [dirExists, hM2]

/-- Claim C10: the key stripping deletes, at every depth, exactly the
string keys whose text begins with the marker text, ordinary data keys
included, and no other key; the preceding round-trip clone keeps exactly
the string-keyed, non-undefined entries, having already dropped genuine
symbol-keyed and undefined-valued properties. -/
theorem clean_strips_exactly_marker_text_keys :
    (∀ (fs : List (String × JVal)) (k : String),
       lookupF (cleanFields fs) k =
         if markerB k then none else (lookupF fs k).map cleanSchema) ∧
    (∀ (gs : List (JKey × JSVal)) (k : String),
       lookupF (cloneFields gs) k = (lookupKeep gs k).map jsonClone) ∧
    (∀ fs : List (String × JVal), cleanSchema (JVal.obj fs) = JVal.obj (cleanFields fs)) ∧
    (∀ xs : List JVal, cleanSchema (JVal.arr xs) = JVal.arr (cleanList xs)) :=
  ⟨lookupF_cleanFields, lookupF_cloneFields, fun _ => rfl, fun _ => rfl⟩
